import Mathlib

/-
A shallow embedding of the composed-resource pipeline in
pkg/controller/apiextensions/composite/composed/api.go
(Configure, Overlay, Fetch, getWriteConnectionSecretToReference, IsReady),
together with theorems settling the specification claims about it.

Modelling conventions:
- Go maps with string keys are association lists with an overwriting
  insert; indexing a missing key yields the zero value "".
- The dynamic (unstructured) document is a tagged value tree; fieldpath
  resolution distinguishes a missing field (notFound) from traversing
  through a non-object value (notObject), like the fieldpath package.
- Fallible Go functions return Except; functions that mutate the child
  in place and can also fail return the final child state paired with an
  optional error.
- The template base is the parsed base document (the data model of the
  spec); unmarshalling a parsed document into the child replaces the
  child wholesale, as json.Unmarshal does on an Unstructured object.
-/

namespace Crossplane

/-- A JSON-like dynamic document value: string, integer, or object. -/
inductive Value where
| str : String → Value
| int : Int → Value
| obj : List (String × Value) → Value

/-- Outcome classification of fieldpath resolution: a missing field is
distinguishable from traversing through a value that is not an object. -/
inductive GetErr where
| notFound : GetErr
| notObject : GetErr
deriving DecidableEq

/-- Look up a field of an object body (first match). -/
def getField : List (String × Value) → String → Option Value
| [], _ => none
| (k, v) :: fs, k2 => if k = k2 then some v else getField fs k2

/-- Resolve a dotted field path against a document, as fieldpath.GetValue. -/
def Value.get : Value → List String → Except GetErr Value
| v, [] => .ok v
| .obj fs, k :: ks =>
  match getField fs k with
  | some v2 => Value.get v2 ks
  | none => .error .notFound
| .str _, _ :: _ => .error .notObject
| .int _, _ :: _ => .error .notObject

/-- Errors of the typed getters: an underlying resolution error, or a
value of the wrong type at the resolved path. -/
inductive TypedErr where
| get : GetErr → TypedErr
| wrongType : TypedErr
deriving DecidableEq

/-- fieldpath.GetString: resolve, then require a string value. -/
def Value.getString (v : Value) (p : List String) : Except TypedErr String :=
  match v.get p with
  | .error e => .error (.get e)
  | .ok (.str s) => .ok s
  | .ok _ => .error .wrongType

/-- fieldpath.GetInteger: resolve, then require an integer value. -/
def Value.getInteger (v : Value) (p : List String) : Except TypedErr Int :=
  match v.get p with
  | .error e => .error (.get e)
  | .ok (.int n) => .ok n
  | .ok _ => .error .wrongType

/-- True exactly on the empty-string value; models the Go interface
comparison of a resolved value with the string literal of length zero. -/
def Value.isEmptyStr : Value → Bool
| .str s => s = ""
| _ => false

/-- True exactly on string values. -/
def Value.isString : Value → Bool
| .str _ => true
| _ => false

/-- A Go map[string]string, as an association list with unique keys. -/
abbrev Labels := List (String × String)

/-- Indexing a Go string map: missing keys read as the zero value. -/
def Labels.get : Labels → String → String
| [], _ => ""
| (k, v) :: t, k2 => if k = k2 then v else Labels.get t k2

/-- Go map assignment: overwrite the existing binding or append one. -/
def Labels.insert : Labels → String → String → Labels
| [], k, v => [(k, v)]
| (k1, v1) :: t, k, v =>
  if k1 = k then (k1, v) :: t else (k1, v1) :: Labels.insert t k v

/-- Label key crossplane.io/composite (the name-prefix label). -/
def LabelKeyNamePrefixForComposed : String := "crossplane.io/composite"

/-- Label key crossplane.io/claim-name. -/
def LabelKeyClaimName : String := "crossplane.io/claim-name"

/-- Label key crossplane.io/claim-namespace. -/
def LabelKeyClaimNamespace : String := "crossplane.io/claim-namespace"

/-- A secret reference: name and namespace of a secret. -/
structure SecretReference where
  name : String
  nspace : String
deriving DecidableEq

/-- The parent (resource.Composite): its labels are all the pipeline reads. -/
structure Composite where
  labels : Labels

/-- The child (resource.Composed): identity fields, its dynamic document
content, the Ready condition, and its own default
write-connection-secret reference. -/
structure Composed where
  name : String
  nspace : String
  generateName : String
  labels : Labels
  conditionReady : Bool
  doc : Value
  writeConnRef : Option SecretReference

/-- An opaque patch: given (parent, child) it yields a mutated child or
fails with an error message. -/
abbrev Patch := Composite → Composed → Except String Composed

/-- A connection detail spec: optional name, literal value, and
from-connection-secret key, as v1alpha1.ConnectionDetail. -/
structure ConnectionDetail where
  name : Option String
  value : Option String
  fromConnectionSecretKey : Option String

/-- An indirect secret reference: paths into the child document that
resolve to the name and namespace of the secret to fetch. -/
structure ConnectionSecretRef where
  namePath : List String
  namespacePath : List String

/-- A readiness check, as v1alpha1.ReadinessCheck: the type is the raw
string tag switched on by IsReady. -/
structure ReadinessCheck where
  type : String
  fieldPath : List String
  matchString : String
  matchInteger : Int
deriving DecidableEq

/-- The composed template, as v1alpha1.ComposedTemplate; the base is the
parsed base document. -/
structure ComposedTemplate where
  base : Composed
  patches : List Patch
  connectionDetails : List ConnectionDetail
  readinessChecks : List ReadinessCheck
  connectionSecretRef : Option ConnectionSecretRef

/-- The error returned by Configure when the parent lacks a non-empty
name-prefix label (errNamePrefix, the MissingNamePrefix error). -/
inductive ConfigErr where
| missingPrefixLabel : ConfigErr
deriving DecidableEq

/-- DefaultConfigurator.Configure: capture name and namespace, unmarshal
the base over the child, check the name-prefix label, add the lineage
labels, and restore name / set generateName / set namespace. Returns the
final child state (the child is mutated in place in the source) and the
optional error. -/
def Configure (cp : Composite) (cd : Composed) (t : ComposedTemplate) :
    Composed × Option ConfigErr :=
  let name := cd.name
  let ns0 := cd.nspace
  let ns := if ns0 = "" then Labels.get cp.labels LabelKeyClaimNamespace else ns0
  let cd1 := t.base
  if Labels.get cp.labels LabelKeyNamePrefixForComposed = "" then
    (cd1, some .missingPrefixLabel)
  else
    let ls := Labels.insert
      (Labels.insert
        (Labels.insert cd1.labels LabelKeyNamePrefixForComposed
          (Labels.get cp.labels LabelKeyNamePrefixForComposed))
        LabelKeyClaimName (Labels.get cp.labels LabelKeyClaimName))
      LabelKeyClaimNamespace (Labels.get cp.labels LabelKeyClaimNamespace)
    let cd2 := { cd1 with labels := ls }
    let cd3 := { cd2 with
      generateName := Labels.get cp.labels LabelKeyNamePrefixForComposed ++ "-",
      name := name,
      nspace := ns }
    (cd3, none)

/-- The loop of DefaultOverlayApplicator.Overlay: apply each patch in
order; on the first failure, stop and report the failing index with the
underlying error (errFmtPatch wraps the error with the index). The child
state returned on failure is the state left by the preceding patches. -/
def overlayGo (cp : Composite) : Composed → List Patch → Nat →
    Composed × Option (Nat × String)
| cd, [], _ => (cd, none)
| cd, p :: ps, i =>
  match p cp cd with
  | .ok cd2 => overlayGo cp cd2 ps (i + 1)
  | .error e => (cd, some (i, e))

/-- DefaultOverlayApplicator.Overlay: apply the template patches in list
order starting at index 0. -/
def Overlay (cp : Composite) (cd : Composed) (t : ComposedTemplate) :
    Composed × Option (Nat × String) :=
  overlayGo cp cd t.patches 0

/-- Sequential application of a patch list, succeeding only if every
patch succeeds; used to state properties of Overlay. -/
def applyAll (cp : Composite) : Composed → List Patch → Option Composed
| cd, [] => some cd
| cd, p :: ps =>
  match p cp cd with
  | .ok cd2 => applyAll cp cd2 ps
  | .error _ => none

/-- A secret document: its string-keyed data, as an association list.
Byte slices are modelled as strings; indexing a missing key yields the
zero-length value. -/
abbrev Secret := List (String × String)

/-- Indexing the data of a secret, with the zero value for missing keys
(a missing key and a zero-length value are indistinguishable, exactly as
len of a nil byte slice in the source). -/
def Secret.get : Secret → String → String
| [], _ => ""
| (k, v) :: t, k2 => if k = k2 then v else Secret.get t k2

/-- The zero Secret left untouched when the store reports not-found. -/
def emptySecret : Secret := []

/-- The error classification of the injected secret store client:
not-found is distinguishable from every other error. -/
inductive StoreErr where
| notFound : StoreErr
| other : String → StoreErr
deriving DecidableEq

/-- The injected secret store client (client.Client.Get restricted to
secrets): resolves a secret reference to a secret document or an error. -/
abbrev Store := SecretReference → Except StoreErr Secret

/-- The connection details mapping (managed.ConnectionDetails), a
string-keyed map modelled as an association list with overwriting
insert; values are the secret byte strings. -/
abbrev CDetails := List (String × String)

/-- Go map assignment on a connection details mapping. -/
def insertD : CDetails → String → String → CDetails
| [], k, v => [(k, v)]
| (k1, v1) :: t, k, v =>
  if k1 = k then (k1, v) :: t else (k1, v1) :: insertD t k v

/-- Errors surfaced by Fetch and its secret-reference resolution. The
interfaceConversionPanic constructor marks the Go runtime panic raised
by the unchecked string type assertions in
getWriteConnectionSecretToReference: in the source this is a crash, not
a returned error value. -/
inductive FetchErr where
| notUnstructuredType : FetchErr
| secretPathNotFound : List String → FetchErr
| secretFetchFailed : String → FetchErr
| interfaceConversionPanic : FetchErr
deriving DecidableEq

/-- getWriteConnectionSecretToReference: if the template has no
connectionSecretRef, fall back to the child default
write-connection-secret reference; otherwise resolve the name and
namespace paths against the child document (any resolution error is
reported as the path not being found), return no reference if either
resolved value equals the empty string, and otherwise cast both values
to strings — an unchecked assertion that panics on a non-string value. -/
def getWriteConnectionSecretToReference (cd : Composed) (t : ComposedTemplate) :
    Except FetchErr (Option SecretReference) :=
  match t.connectionSecretRef with
  | none => .ok cd.writeConnRef
  | some r =>
    match cd.doc.get r.namePath with
    | .error _ => .error (.secretPathNotFound r.namePath)
    | .ok name =>
      match cd.doc.get r.namespacePath with
      | .error _ => .error (.secretPathNotFound r.namespacePath)
      | .ok nsv =>
        if name.isEmptyStr || nsv.isEmptyStr then .ok none
        else
          match name, nsv with
          | .str n, .str ns => .ok (some ⟨n, ns⟩)
          | _, _ => .error .interfaceConversionPanic

/-- One iteration of the connection-details mapping loop in
APIConnectionDetailsFetcher.Fetch: a spec with both name and value set
is a literal; otherwise a spec without a from-connection-secret key, or
whose key has zero-length data in the secret, contributes nothing;
otherwise the output key is the spec name if set, else the secret key. -/
def applyDetail (s : Secret) (conn : CDetails) (d : ConnectionDetail) : CDetails :=
  match d.name, d.value with
  | some n, some v => insertD conn n v
  | _, _ =>
    match d.fromConnectionSecretKey with
    | none => conn
    | some k =>
      if Secret.get s k = "" then conn
      else insertD conn (d.name.getD k) (Secret.get s k)

/-- The whole mapping pass of Fetch over the connection detail specs, in
order, over one output mapping starting empty. -/
def mapDetails (s : Secret) (ds : List ConnectionDetail) : CDetails :=
  ds.foldl (applyDetail s) []

/-- The step of the mapping pass that only applies literal specs; the
mapping pass against the empty secret coincides with it. -/
def literalStep (conn : CDetails) (d : ConnectionDetail) : CDetails :=
  match d.name, d.value with
  | some n, some v => insertD conn n v
  | _, _ => conn

/-- The mapping containing exactly the entries of the literal specs. -/
def literalDetails (ds : List ConnectionDetail) : CDetails :=
  ds.foldl literalStep []

/-- The tail of Fetch once a secret reference is in hand: consult the
store at the reference; not-found leaves the zero secret in place, any
other store error is fatal (errGetSecret, the SecretFetchFailed error),
and the mapping pass runs over the template connection details. -/
def fetchDetails (res : Except StoreErr Secret) (t : ComposedTemplate) :
    Except FetchErr (Option CDetails) :=
  match res with
  | .ok s => .ok (some (mapDetails s t.connectionDetails))
  | .error .notFound => .ok (some (mapDetails emptySecret t.connectionDetails))
  | .error (.other msg) => .error (.secretFetchFailed msg)

/-- APIConnectionDetailsFetcher.Fetch: resolve the secret reference,
return (nil, nil) when there is none, and otherwise fetch the secret at
exactly that reference and run the mapping pass. -/
def Fetch (store : Store) (cd : Composed) (t : ComposedTemplate) :
    Except FetchErr (Option CDetails) :=
  match getWriteConnectionSecretToReference cd t with
  | .error e => .error e
  | .ok none => .ok none
  | .ok (some sref) => fetchDetails (store sref) t

/-- Errors surfaced by IsReady: a resolution error from the NonEmpty
branch, a typed-getter error from the MatchString or MatchInteger
branch, or an unknown check type at some index. -/
inductive RdyErr where
| notUnstructuredType : RdyErr
| getVal : GetErr → RdyErr
| getStr : TypedErr → RdyErr
| getInt : TypedErr → RdyErr
| unknownType : Nat → RdyErr
deriving DecidableEq

/-- One readiness check of DefaultReadinessChecker.IsReady, switching on
the raw type tag. NonEmpty: not-found means not ready, any other
resolution error is returned. MatchString: not-found means not ready,
any other error (including a non-string value) is returned, otherwise
ready iff the string equals matchString. MatchInteger: every error,
not-found included, is returned, otherwise ready iff the integer equals
matchInteger. Any other tag is an error naming the index. -/
def evalCheck (doc : Value) (c : ReadinessCheck) (i : Nat) : Except RdyErr Bool :=
  if c.type = "NonEmpty" then
    match doc.get c.fieldPath with
    | .ok _ => .ok true
    | .error .notFound => .ok false
    | .error e => .error (.getVal e)
  else if c.type = "MatchString" then
    match doc.getString c.fieldPath with
    | .ok v => .ok (v == c.matchString)
    | .error (.get .notFound) => .ok false
    | .error e => .error (.getStr e)
  else if c.type = "MatchInteger" then
    match doc.getInteger c.fieldPath with
    | .ok v => .ok (v == c.matchInteger)
    | .error e => .error (.getInt e)
  else .error (.unknownType i)

/-- The loop of IsReady: evaluate the checks in order; propagate the
first error, stop with false at the first unmet check, and return true
when every check passed. -/
def isReadyGo (doc : Value) : List ReadinessCheck → Nat → Except RdyErr Bool
| [], _ => .ok true
| c :: cs, i =>
  match evalCheck doc c i with
  | .error e => .error e
  | .ok ready => if ready then isReadyGo doc cs (i + 1) else .ok false

/-- DefaultReadinessChecker.IsReady: with no readiness checks, readiness
is the child Ready condition; otherwise the checks run in order against
the child document. -/
def IsReady (cd : Composed) (t : ComposedTemplate) : Except RdyErr Bool :=
  if t.readinessChecks = [] then .ok cd.conditionReady
  else isReadyGo cd.doc t.readinessChecks 0

/-- A child with a given document and default secret reference, named x,
used as concrete input. -/
def mkCd (doc : Value) (wrf : Option SecretReference) : Composed :=
  ⟨"x", "", "", [], false, doc, wrf⟩

/-- A parent with no labels at all. -/
def cpBad : Composite := ⟨[]⟩

/-- A parent whose name-prefix label is the string pfx and whose claim
labels are absent (so they read as empty strings). -/
def cpGood : Composite := ⟨[(LabelKeyNamePrefixForComposed, "pfx")]⟩

/-- A child initially named x, with an empty document. -/
def cdX : Composed := mkCd (.obj []) none

/-- A base document that sets the name to y. -/
def baseY : Composed := ⟨"y", "", "", [], false, .obj [], none⟩

/-- A template whose base sets a name and that has nothing else. -/
def tY : ComposedTemplate := ⟨baseY, [], [], [], none⟩

/-- A patch that renames the child. -/
def patchSetName (n : String) : Patch := fun _ c => .ok { c with name := n }

/-- A patch that always fails with the given message. -/
def patchFail (msg : String) : Patch := fun _ _ => .error msg

/-- A template with three patches: succeed, fail, succeed. -/
def t3 : ComposedTemplate :=
  ⟨baseY, [patchSetName "p0", patchFail "boom", patchSetName "p2"], [], [], none⟩

/-- The child after the first patch of t3 only. -/
def cd3mid : Composed := { cdX with name := "p0" }

/-- An indirect secret reference with name path a and namespace path b. -/
def refAB : ConnectionSecretRef := ⟨["a"], ["b"]⟩

/-- A template carrying only the indirect secret reference refAB. -/
def tRef : ComposedTemplate := ⟨baseY, [], [], [], some refAB⟩

/-- A default write-connection-secret reference of a child. -/
def defRef : SecretReference := ⟨"defname", "defns"⟩

/-- A child with an empty document but a default secret reference. -/
def cdNoA : Composed := mkCd (.obj []) (some defRef)

/-- A child whose document resolves the name path but not the namespace
path. -/
def cdNoB : Composed := mkCd (.obj [("a", .str "n")]) (some defRef)

/-- A child whose document resolves the name path to the empty string. -/
def cdEmptyName : Composed := mkCd (.obj [("a", .str ""), ("b", .str "m")]) (some defRef)

/-- A child whose document resolves both paths to non-empty strings. -/
def cdFull : Composed := mkCd (.obj [("a", .str "n"), ("b", .str "m")]) (some defRef)

/-- A child whose document resolves the name path to the integer 5. -/
def cdNum : Composed := mkCd (.obj [("a", .int 5), ("b", .str "m")]) none

/-- A store that reports not-found for every reference. -/
def storeNF : Store := fun _ => .error .notFound

/-- A store that fails with a non-not-found error for every reference. -/
def storeErr : Store := fun _ => .error (.other "explode")

/-- A literal connection detail spec: key user, value alice. -/
def litUser : ConnectionDetail := ⟨some "user", some "alice", none⟩

/-- A key-from-secret spec for key password, renamed to pass. -/
def fromPass : ConnectionDetail := ⟨some "pass", none, some "password"⟩

/-- A template with a literal and a key-from-secret connection detail. -/
def t7 : ComposedTemplate := ⟨baseY, [], [litUser, fromPass], [], none⟩

/-- A store holding one secret with password data s3cr3t. -/
def store7 : Store := fun _ => .ok [("password", "s3cr3t")]

/-- A document with fields a = v and b = y. -/
def doc8 : Value := .obj [("a", .str "v"), ("b", .str "y")]

/-- A child whose document is doc8. -/
def cd8 : Composed := mkCd doc8 none

/-- A NonEmpty readiness check on field a. -/
def chkNonEmptyA : ReadinessCheck := ⟨"NonEmpty", ["a"], "", 0⟩

/-- A MatchString readiness check comparing field b with x. -/
def chkMatchBx : ReadinessCheck := ⟨"MatchString", ["b"], "x", 0⟩

/-- A MatchString readiness check comparing field a with x. -/
def chkMatchAx : ReadinessCheck := ⟨"MatchString", ["a"], "x", 0⟩

/-- A readiness check of an unknown type, which errors if evaluated. -/
def chkBogus : ReadinessCheck := ⟨"Bogus", [], "", 0⟩

/-- A template whose checks are pass, fail, unknown-type. -/
def t8 : ComposedTemplate := ⟨baseY, [], [], [chkNonEmptyA, chkMatchBx, chkBogus], none⟩

/-- A child whose field a holds a non-integer value. -/
def cd9 : Composed := mkCd (.obj [("a", .str "not-a-number")]) none

/-- A MatchInteger readiness check comparing field a with 5. -/
def chkMatchInt5 : ReadinessCheck := ⟨"MatchInteger", ["a"], "", 5⟩

/-- A template with the single MatchInteger check on field a. -/
def t9 : ComposedTemplate := ⟨baseY, [], [], [chkMatchInt5], none⟩

/-- A template whose single check passes against doc8. -/
def t8pass : ComposedTemplate := ⟨baseY, [], [], [chkNonEmptyA], none⟩

/-- True exactly on integer values. -/
def Value.isInt : Value → Bool
| .int _ => true
| _ => false

-- Theorems.

/-- Indexing a label map right after inserting the same key yields the
inserted value. -/
theorem Labels.get_insert_self (l : Labels) (k v : String) :
    Labels.get (Labels.insert l k v) k = v := by
  induction l with
  | nil => simp [Labels.insert, Labels.get]
  | cons hd t ih =>
    obtain ⟨k1, v1⟩ := hd
    by_cases hk : k1 = k
    · simp [Labels.insert, hk, Labels.get]
    · simp [Labels.insert, hk, Labels.get, ih]

/-- Indexing a label map at a key different from the inserted one is
unchanged by the insert. -/
theorem Labels.get_insert_ne (l : Labels) (k v k2 : String) (h : k ≠ k2) :
    Labels.get (Labels.insert l k v) k2 = Labels.get l k2 := by
  induction l with
  | nil => simp [Labels.insert, Labels.get, h]
  | cons hd t ih =>
    obtain ⟨k1, v1⟩ := hd
    by_cases hk : k1 = k
    · subst hk
      simp [Labels.insert, Labels.get, h]
    · by_cases hk2 : k1 = k2
      · simp [Labels.insert, hk, Labels.get, hk2, Ne.symm h]
      · simp [Labels.insert, hk, Labels.get, hk2, ih]

/-- Claim C1, counterexample: with a parent lacking the name-prefix
label, a child named x and a template whose base sets the name y,
Configure returns the MissingNamePrefix error but the child name after
the call is y, not its value x before the call — the claim that the
failing call does not mutate the child name is false. -/
theorem c1_missing_label_counterexample :
    (Configure cpBad cdX tY).2 = some ConfigErr.missingPrefixLabel ∧
    (Configure cpBad cdX tY).1.name = "y" ∧ cdX.name = "x" := by
  refine ⟨rfl, rfl, rfl⟩

/-- Claim C1, amended: for every parent whose name-prefix label is
absent or empty, Configure returns the MissingNamePrefix error, but the
child has already been overwritten wholesale by the unmarshalled
template base (the label check runs after the unmarshal and the name is
restored only on the success path), so after the failing call the child
equals the base document and its name is the base name, preserved only
when that coincides with the original. -/
theorem c1_missing_label_overwrites_name (cp : Composite) (cd : Composed)
    (t : ComposedTemplate)
    (h : Labels.get cp.labels LabelKeyNamePrefixForComposed = "") :
    (Configure cp cd t).2 = some ConfigErr.missingPrefixLabel ∧
    (Configure cp cd t).1 = t.base := by
  simp [Configure, h]

/-- Claim C1, witness for the amended theorem at a concrete input. -/
theorem c1_missing_label_overwrites_name_witness :
    (Configure cpBad cdX tY).2 = some ConfigErr.missingPrefixLabel ∧
    (Configure cpBad cdX tY).1 = tY.base :=
  c1_missing_label_overwrites_name cpBad cdX tY rfl

/-- Claim C2: for every parent with a non-empty name-prefix label, a
successful Configure leaves the child name unchanged, sets generateName
to the name-prefix label value followed by a dash, and copies the three
lineage labels from the parent, even when the claim labels read as empty
strings. -/
theorem c2_configure_success (cp : Composite) (cd : Composed) (t : ComposedTemplate)
    (h : Labels.get cp.labels LabelKeyNamePrefixForComposed ≠ "") :
    (Configure cp cd t).2 = none ∧
    (Configure cp cd t).1.name = cd.name ∧
    (Configure cp cd t).1.generateName =
      Labels.get cp.labels LabelKeyNamePrefixForComposed ++ "-" ∧
    Labels.get (Configure cp cd t).1.labels LabelKeyNamePrefixForComposed =
      Labels.get cp.labels LabelKeyNamePrefixForComposed ∧
    Labels.get (Configure cp cd t).1.labels LabelKeyClaimName =
      Labels.get cp.labels LabelKeyClaimName ∧
    Labels.get (Configure cp cd t).1.labels LabelKeyClaimNamespace =
      Labels.get cp.labels LabelKeyClaimNamespace := by
  have hp : ¬ (Labels.get cp.labels LabelKeyNamePrefixForComposed = "") := h
  refine ⟨by simp [Configure, hp], by simp [Configure, hp], by simp [Configure, hp],
    ?_, ?_, ?_⟩
  · simp only [Configure, hp, if_false]
    rw [Labels.get_insert_ne _ _ _ _ (by decide),
      Labels.get_insert_ne _ _ _ _ (by decide), Labels.get_insert_self]
  · simp only [Configure, hp, if_false]
    rw [Labels.get_insert_ne _ _ _ _ (by decide), Labels.get_insert_self]
  · simp only [Configure, hp, if_false]
    rw [Labels.get_insert_self]

/-- Claim C2, witness: a parent whose claim labels are absent (reading
as empty strings) still propagates all three lineage labels. -/
theorem c2_configure_success_witness :
    (Configure cpGood cdX tY).2 = none ∧
    (Configure cpGood cdX tY).1.name = cdX.name ∧
    (Configure cpGood cdX tY).1.generateName =
      Labels.get cpGood.labels LabelKeyNamePrefixForComposed ++ "-" ∧
    Labels.get (Configure cpGood cdX tY).1.labels LabelKeyNamePrefixForComposed =
      Labels.get cpGood.labels LabelKeyNamePrefixForComposed ∧
    Labels.get (Configure cpGood cdX tY).1.labels LabelKeyClaimName =
      Labels.get cpGood.labels LabelKeyClaimName ∧
    Labels.get (Configure cpGood cdX tY).1.labels LabelKeyClaimNamespace =
      Labels.get cpGood.labels LabelKeyClaimNamespace :=
  c2_configure_success cpGood cdX tY (by decide)

/-- When every patch of the list succeeds, the overlay loop returns the
sequentially patched child and no error, whatever the start index. -/
theorem overlayGo_all_ok (cp : Composite) :
    ∀ (ps : List Patch) (cd cd2 : Composed) (i : Nat),
    applyAll cp cd ps = some cd2 → overlayGo cp cd ps i = (cd2, none) := by
  intro ps
  induction ps with
  | nil =>
    intro cd cd2 i h
    simp [applyAll] at h
    subst h
    simp [overlayGo]
  | cons p ps ih =>
    intro cd cd2 i h
    cases hp : p cp cd with
    | ok cd1 =>
      simp [applyAll, hp] at h
      simp [overlayGo, hp]
      exact ih cd1 cd2 (i + 1) h
    | error e =>
      simp [applyAll, hp] at h

/-- When a patch list splits after a sequentially succeeding part, the
overlay loop continues from the patched child with the index advanced by
the length of that part. -/
theorem overlayGo_append (cp : Composite) :
    ∀ (pre : List Patch) (cd cd2 : Composed) (rest : List Patch) (i : Nat),
    applyAll cp cd pre = some cd2 →
    overlayGo cp cd (pre ++ rest) i = overlayGo cp cd2 rest (i + pre.length) := by
  intro pre
  induction pre with
  | nil =>
    intro cd cd2 rest i h
    simp [applyAll] at h
    subst h
    simp
  | cons p pre ih =>
    intro cd cd2 rest i h
    cases hp : p cp cd with
    | ok cd1 =>
      simp [applyAll, hp] at h
      have h2 := ih cd1 cd2 rest (i + 1) h
      have h3 : i + 1 + pre.length = i + (pre.length + 1) := by omega
      simp [overlayGo, hp, h2, h3]
    | error e =>
      simp [applyAll, hp] at h

/-- Claim C3: Overlay applies the template patches strictly in list
order; when every patch succeeds it returns no error and the fully
patched child; when the patches before index i succeed and the patch at
index i fails, it returns an error wrapping that patch error with the
zero-based index i, and the child is exactly the result of the patches
before i — no later patch is applied. -/
theorem c3_overlay_order_and_stop (cp : Composite) (cd : Composed) (t : ComposedTemplate) :
    (∀ cd2, applyAll cp cd t.patches = some cd2 → Overlay cp cd t = (cd2, none)) ∧
    (∀ pre p post cd2 e, t.patches = pre ++ p :: post →
      applyAll cp cd pre = some cd2 → p cp cd2 = .error e →
      Overlay cp cd t = (cd2, some (pre.length, e))) := by
  constructor
  · intro cd2 h
    exact overlayGo_all_ok cp t.patches cd cd2 0 h
  · intro pre p post cd2 e hsplit hpre hfail
    have h1 : Overlay cp cd t = overlayGo cp cd (pre ++ p :: post) 0 := by
      simp [Overlay, hsplit]
    rw [h1, overlayGo_append cp pre cd cd2 (p :: post) 0 hpre]
    simp [overlayGo, hfail]

/-- Claim C3, witness: patches [succeed, fail, succeed] give the error
at index 1, and the final child carries only the first patch mutation
(the third patch would rename the child to p2 and is never observed). -/
theorem c3_overlay_order_and_stop_witness :
    applyAll cpGood cdX [patchSetName "p0"] = some cd3mid ∧
    Overlay cpGood cdX t3 = (cd3mid, some (1, "boom")) ∧
    cd3mid.name = "p0" := by
  refine ⟨rfl, ?_, rfl⟩
  exact (c3_overlay_order_and_stop cpGood cdX t3).2 [patchSetName "p0"]
    (patchFail "boom") [patchSetName "p2"] cd3mid "boom" rfl rfl rfl

/-- Claim C4: secret reference resolution of Fetch. With the template
indirect reference set: a failing name or namespace path resolution is a
SecretPathNotFound failure naming that path; both paths resolving with
either value equal to the empty string yields no details and no error;
both paths resolving to non-empty strings makes Fetch consult the store
at exactly that reference, and the child default reference is irrelevant
to the result. With the indirect reference unset, Fetch falls back to
the child default reference, and yields no details and no error when
that is also absent. -/
theorem c4_fetch_secret_ref_resolution (store : Store) (cd : Composed) (t : ComposedTemplate) :
    (∀ r e, t.connectionSecretRef = some r → cd.doc.get r.namePath = .error e →
      Fetch store cd t = .error (.secretPathNotFound r.namePath)) ∧
    (∀ r v e, t.connectionSecretRef = some r → cd.doc.get r.namePath = .ok v →
      cd.doc.get r.namespacePath = .error e →
      Fetch store cd t = .error (.secretPathNotFound r.namespacePath)) ∧
    (∀ r v w, t.connectionSecretRef = some r → cd.doc.get r.namePath = .ok v →
      cd.doc.get r.namespacePath = .ok w → (v.isEmptyStr || w.isEmptyStr) = true →
      Fetch store cd t = .ok none) ∧
    (∀ r n ns, t.connectionSecretRef = some r →
      cd.doc.get r.namePath = .ok (.str n) → cd.doc.get r.namespacePath = .ok (.str ns) →
      n ≠ "" → ns ≠ "" →
      Fetch store cd t = fetchDetails (store ⟨n, ns⟩) t) ∧
    (∀ r wrf, t.connectionSecretRef = some r →
      Fetch store { cd with writeConnRef := wrf } t = Fetch store cd t) ∧
    (t.connectionSecretRef = none → cd.writeConnRef = none →
      Fetch store cd t = .ok none) ∧
    (∀ sref, t.connectionSecretRef = none → cd.writeConnRef = some sref →
      Fetch store cd t = fetchDetails (store sref) t) := by
  refine ⟨?_, ?_, ?_, ?_, ?_, ?_, ?_⟩
  · intro r e hr hname
    simp [Fetch, getWriteConnectionSecretToReference, hr, hname]
  · intro r v e hr hname hns
    simp [Fetch, getWriteConnectionSecretToReference, hr, hname, hns]
  · intro r v w hr hname hns hempty
    simp [Fetch, getWriteConnectionSecretToReference, hr, hname, hns, hempty]
  · intro r n ns hr hname hns hn hns2
    simp [Fetch, getWriteConnectionSecretToReference, hr, hname, hns,
      Value.isEmptyStr, hn, hns2]
  · intro r wrf hr
    simp [Fetch, getWriteConnectionSecretToReference, hr]
  · intro hr hw
    simp [Fetch, getWriteConnectionSecretToReference, hr, hw]
  · intro sref hr hw
    simp [Fetch, getWriteConnectionSecretToReference, hr, hw]

/-- Claim C4, witness: every branch of the resolution at a concrete
input. -/
theorem c4_fetch_secret_ref_resolution_witness :
    Fetch storeNF cdNoA tRef = .error (.secretPathNotFound ["a"]) ∧
    Fetch storeNF cdNoB tRef = .error (.secretPathNotFound ["b"]) ∧
    Fetch storeNF cdEmptyName tRef = .ok none ∧
    Fetch store7 cdFull tRef = fetchDetails (store7 ⟨"n", "m"⟩) tRef ∧
    Fetch store7 { cdFull with writeConnRef := none } tRef = Fetch store7 cdFull tRef ∧
    Fetch storeNF cdX tY = .ok none ∧
    Fetch store7 cdNoA tY = fetchDetails (store7 defRef) tY := by
  refine ⟨?_, ?_, ?_, ?_, ?_, ?_, ?_⟩
  · exact (c4_fetch_secret_ref_resolution storeNF cdNoA tRef).1 refAB .notFound rfl rfl
  · exact (c4_fetch_secret_ref_resolution storeNF cdNoB tRef).2.1 refAB (.str "n")
      .notFound rfl rfl rfl
  · exact (c4_fetch_secret_ref_resolution storeNF cdEmptyName tRef).2.2.1 refAB
      (.str "") (.str "m") rfl rfl rfl rfl
  · exact (c4_fetch_secret_ref_resolution store7 cdFull tRef).2.2.2.1 refAB "n" "m"
      rfl rfl rfl (by decide) (by decide)
  · exact (c4_fetch_secret_ref_resolution store7 cdFull tRef).2.2.2.2.1 refAB none rfl
  · exact (c4_fetch_secret_ref_resolution storeNF cdX tY).2.2.2.2.2.1 rfl rfl
  · exact (c4_fetch_secret_ref_resolution store7 cdNoA tY).2.2.2.2.2.2 defRef rfl rfl

/-- Claim C5, counterexample: with the name path resolving to the
integer 5 (non-empty, not a string) and the namespace path to a
non-empty string, Fetch does not return a type error result: it reaches
the unchecked string type assertion of the source, which panics — the
outcome is the modelled Go interface-conversion runtime panic, a crash
rather than a returned error. -/
theorem c5_cast_counterexample :
    cdNum.doc.get refAB.namePath = .ok (.int 5) ∧
    cdNum.doc.get refAB.namespacePath = .ok (.str "m") ∧
    Fetch storeNF cdNum tRef = .error .interfaceConversionPanic :=
  ⟨rfl, rfl, rfl⟩

/-- Claim C5, amended: for every template with the indirect secret
reference set and every child document in which both paths resolve to
values that are not the empty string, and at least one of them is not a
string, Fetch reaches the unchecked string type assertion and panics
(the modelled interface-conversion crash); no error value is returned. -/
theorem c5_nonstring_cast_panics (store : Store) (cd : Composed) (t : ComposedTemplate)
    (r : ConnectionSecretRef) (v w : Value)
    (hr : t.connectionSecretRef = some r)
    (hv : cd.doc.get r.namePath = .ok v)
    (hw : cd.doc.get r.namespacePath = .ok w)
    (hve : v.isEmptyStr = false) (hwe : w.isEmptyStr = false)
    (hns : v.isString = false ∨ w.isString = false) :
    Fetch store cd t = .error .interfaceConversionPanic := by
  have hg : getWriteConnectionSecretToReference cd t = .error .interfaceConversionPanic := by
    simp [getWriteConnectionSecretToReference, hr, hv, hw, hve, hwe]
    cases v <;> cases w <;> simp_all [Value.isString]
  simp [Fetch, hg]

/-- Claim C5, witness for the amended theorem at the concrete input of
the counterexample. -/
theorem c5_nonstring_cast_panics_witness :
    Fetch storeNF cdNum tRef = .error .interfaceConversionPanic :=
  c5_nonstring_cast_panics storeNF cdNum tRef refAB (.int 5) (.str "m")
    rfl rfl rfl rfl rfl (Or.inl rfl)

/-- A key-from-secret spec against the zero secret always skips, so one
mapping step over the empty secret is the literal-only step. -/
theorem applyDetail_empty (conn : CDetails) (d : ConnectionDetail) :
    applyDetail emptySecret conn d = literalStep conn d := by
  cases hn : d.name <;> cases hv : d.value <;>
    cases hk : d.fromConnectionSecretKey <;>
    simp [applyDetail, literalStep, hn, hv, hk, emptySecret, Secret.get]

/-- The mapping pass over the empty secret from any accumulator is the
literal-only pass. -/
theorem foldl_applyDetail_empty :
    ∀ (ds : List ConnectionDetail) (conn : CDetails),
    ds.foldl (applyDetail emptySecret) conn = ds.foldl literalStep conn := by
  intro ds
  induction ds with
  | nil => intro conn; rfl
  | cons d ds ih =>
    intro conn
    simp only [List.foldl, applyDetail_empty]
    exact ih _

/-- The mapping pass over the empty secret produces exactly the entries
of the literal specs. -/
theorem mapDetails_empty (ds : List ConnectionDetail) :
    mapDetails emptySecret ds = literalDetails ds :=
  foldl_applyDetail_empty ds []

/-- Claim C6: when the store reports not-found for the resolved secret
reference, Fetch succeeds with a non-nil mapping holding exactly the
entries of the literal connection detail specs (every key-from-secret
spec finds zero-length data and is skipped); every other store error
makes Fetch fail with SecretFetchFailed. -/
theorem c6_fetch_store_errors (store : Store) (cd : Composed) (t : ComposedTemplate)
    (sref : SecretReference)
    (h : getWriteConnectionSecretToReference cd t = .ok (some sref)) :
    (store sref = .error .notFound →
      Fetch store cd t = .ok (some (literalDetails t.connectionDetails))) ∧
    (∀ msg, store sref = .error (.other msg) →
      Fetch store cd t = .error (.secretFetchFailed msg)) := by
  constructor
  · intro hnf
    simp [Fetch, h, fetchDetails, hnf, mapDetails_empty]
  · intro msg hme
    simp [Fetch, h, fetchDetails, hme]

/-- Claim C6, witness: a not-found store yields only the literal entry;
a failing store yields SecretFetchFailed. -/
theorem c6_fetch_store_errors_witness :
    Fetch storeNF cdNoA t7 = .ok (some [("user", "alice")]) ∧
    Fetch storeErr cdNoA t7 = .error (.secretFetchFailed "explode") := by
  constructor
  · exact (c6_fetch_store_errors storeNF cdNoA t7 defRef rfl).1 rfl
  · exact (c6_fetch_store_errors storeErr cdNoA t7 defRef rfl).2 "explode" rfl

/-- Claim C7: the connection-detail mapping pass, spec by spec. A spec
with name and value both set contributes its literal entry and never
reads the secret; a spec that is not a literal and has no
from-connection-secret key contributes nothing; one whose key has
zero-length data contributes nothing; otherwise the entry key is the
spec name if set, else the secret key, and the value is the secret data
at that key. At the concrete input of the spec, a literal user/alice and
a renamed password key yield exactly user - alice and pass - s3cr3t. -/
theorem c7_mapping_pass :
    (∀ (s : Secret) (conn : CDetails) (d : ConnectionDetail) (n v : String),
      d.name = some n → d.value = some v → applyDetail s conn d = insertD conn n v) ∧
    (∀ (s : Secret) (conn : CDetails) (d : ConnectionDetail),
      (d.name = none ∨ d.value = none) → d.fromConnectionSecretKey = none →
      applyDetail s conn d = conn) ∧
    (∀ (s : Secret) (conn : CDetails) (d : ConnectionDetail) (k : String),
      (d.name = none ∨ d.value = none) → d.fromConnectionSecretKey = some k →
      Secret.get s k = "" → applyDetail s conn d = conn) ∧
    (∀ (s : Secret) (conn : CDetails) (d : ConnectionDetail) (k : String),
      (d.name = none ∨ d.value = none) → d.fromConnectionSecretKey = some k →
      Secret.get s k ≠ "" →
      applyDetail s conn d = insertD conn (d.name.getD k) (Secret.get s k)) ∧
    Fetch store7 cdNoA t7 = .ok (some [("user", "alice"), ("pass", "s3cr3t")]) := by
  refine ⟨?_, ?_, ?_, ?_, rfl⟩
  · intro s conn d n v hn hv
    simp [applyDetail, hn, hv]
  · intro s conn d h hk
    rcases h with hn | hv
    · cases hv2 : d.value <;> simp [applyDetail, hn, hv2, hk]
    · cases hn2 : d.name <;> simp [applyDetail, hn2, hv, hk]
  · intro s conn d k h hk hget
    rcases h with hn | hv
    · cases hv2 : d.value <;> simp [applyDetail, hn, hv2, hk, hget]
    · cases hn2 : d.name <;> simp [applyDetail, hn2, hv, hk, hget]
  · intro s conn d k h hk hget
    rcases h with hn | hv
    · cases hv2 : d.value <;> simp [applyDetail, hn, hv2, hk, hget]
    · cases hn2 : d.name <;> simp [applyDetail, hn2, hv, hk, hget]

/-- Claim C7, witness: each mapping-pass case at a concrete input. -/
theorem c7_mapping_pass_witness :
    applyDetail emptySecret [] litUser = insertD [] "user" "alice" ∧
    applyDetail [("password", "s3cr3t")] [] ⟨none, none, none⟩ = [] ∧
    applyDetail [("k", "")] [] ⟨none, none, some "k"⟩ = [] ∧
    applyDetail [("password", "s3cr3t")] [("user", "alice")] fromPass =
      insertD [("user", "alice")] "pass" "s3cr3t" := by
  refine ⟨?_, ?_, ?_, ?_⟩
  · exact c7_mapping_pass.1 emptySecret [] litUser "user" "alice" rfl rfl
  · exact c7_mapping_pass.2.1 [("password", "s3cr3t")] [] ⟨none, none, none⟩
      (Or.inl rfl) rfl
  · exact c7_mapping_pass.2.2.1 [("k", "")] [] ⟨none, none, some "k"⟩ "k"
      (Or.inl rfl) rfl rfl
  · exact c7_mapping_pass.2.2.2.1 [("password", "s3cr3t")] [("user", "alice")]
      fromPass "password" (Or.inr rfl) rfl (by decide)

/-- When every check of the list passes from some start index, the
readiness loop returns true. -/
theorem isReadyGo_all_pass (doc : Value) :
    ∀ (cs : List ReadinessCheck) (i : Nat),
    (∀ j (h : j < cs.length), evalCheck doc (cs.get ⟨j, h⟩) (i + j) = .ok true) →
    isReadyGo doc cs i = .ok true := by
  intro cs
  induction cs with
  | nil => intro i _; rfl
  | cons c cs ih =>
    intro i h
    have h0 : evalCheck doc c i = .ok true := by simpa using h 0 (Nat.succ_pos _)
    simp only [isReadyGo, h0, if_true]
    refine ih (i + 1) ?_
    intro j hj
    have h2 : i + 1 + j = i + (j + 1) := by omega
    rw [h2]
    exact h (j + 1) (Nat.succ_lt_succ hj)

/-- When the readiness loop returns true, every check of the list passed
at its index. -/
theorem isReadyGo_true_all (doc : Value) :
    ∀ (cs : List ReadinessCheck) (i : Nat), isReadyGo doc cs i = .ok true →
    ∀ j (h : j < cs.length), evalCheck doc (cs.get ⟨j, h⟩) (i + j) = .ok true := by
  intro cs
  induction cs with
  | nil => intro i _ j hj; exact absurd hj (Nat.not_lt_zero j)
  | cons c cs ih =>
    intro i h j hj
    simp only [isReadyGo] at h
    cases he : evalCheck doc c i with
    | error e =>
      rw [he] at h
      exact absurd h (by simp)
    | ok ready =>
      rw [he] at h
      cases ready with
      | false => simp at h
      | true =>
        simp only [if_true] at h
        cases j with
        | zero => simpa using he
        | succ j2 =>
          have hj2 : j2 < cs.length := Nat.lt_of_succ_lt_succ hj
          have h3 := ih (i + 1) h j2 hj2
          have h4 : i + 1 + j2 = i + (j2 + 1) := by omega
          rw [h4] at h3
          exact h3

/-- The readiness loop skips over a passing part of the check list,
advancing the index by its length. -/
theorem isReadyGo_append (doc : Value) :
    ∀ (pre rest : List ReadinessCheck) (i : Nat),
    (∀ j (h : j < pre.length), evalCheck doc (pre.get ⟨j, h⟩) (i + j) = .ok true) →
    isReadyGo doc (pre ++ rest) i = isReadyGo doc rest (i + pre.length) := by
  intro pre
  induction pre with
  | nil => intro rest i _; simp
  | cons c cs ih =>
    intro rest i h
    have h0 : evalCheck doc c i = .ok true := by simpa using h 0 (Nat.succ_pos _)
    have hrest : ∀ j (hj : j < cs.length),
        evalCheck doc (cs.get ⟨j, hj⟩) (i + 1 + j) = .ok true := by
      intro j hj
      have h2 : i + 1 + j = i + (j + 1) := by omega
      rw [h2]
      exact h (j + 1) (Nat.succ_lt_succ hj)
    have hrec := ih rest (i + 1) hrest
    have h3 : i + 1 + cs.length = i + (cs.length + 1) := by omega
    simp only [List.cons_append, isReadyGo, h0, if_true, List.append_eq,
      List.length_cons]
    rw [hrec, h3]

/-- Claim C8: with a non-empty check list, IsReady returns true exactly
when every check passes at its index; it returns false with no error as
soon as a first unmet check follows a passing part, whatever checks come
after it; and for NonEmpty and MatchString checks a not-found field path
makes the check unmet, not an error. -/
theorem c8_isready_and_shortcircuit (cd : Composed) (t : ComposedTemplate)
    (hne : t.readinessChecks ≠ []) :
    (IsReady cd t = .ok true ↔
      ∀ j (h : j < t.readinessChecks.length),
        evalCheck cd.doc (t.readinessChecks.get ⟨j, h⟩) j = .ok true) ∧
    (∀ pre c post, t.readinessChecks = pre ++ c :: post →
      (∀ j (h : j < pre.length), evalCheck cd.doc (pre.get ⟨j, h⟩) j = .ok true) →
      evalCheck cd.doc c pre.length = .ok false →
      IsReady cd t = .ok false) ∧
    (∀ (c : ReadinessCheck) (i : Nat),
      (c.type = "NonEmpty" ∨ c.type = "MatchString") →
      cd.doc.get c.fieldPath = .error .notFound →
      evalCheck cd.doc c i = .ok false) := by
  have hIs : IsReady cd t = isReadyGo cd.doc t.readinessChecks 0 := by
    simp [IsReady, hne]
  refine ⟨?_, ?_, ?_⟩
  · rw [hIs]
    constructor
    · intro h j hj
      simpa using isReadyGo_true_all cd.doc t.readinessChecks 0 h j hj
    · intro h
      refine isReadyGo_all_pass cd.doc t.readinessChecks 0 ?_
      intro j hj
      simpa using h j hj
  · intro pre c post hsplit hpre hfail
    have hprez : ∀ j (hj : j < pre.length),
        evalCheck cd.doc (pre.get ⟨j, hj⟩) (0 + j) = .ok true := by
      intro j hj
      simpa using hpre j hj
    rw [hIs, hsplit, isReadyGo_append cd.doc pre (c :: post) 0 hprez]
    have h0 : (0 : Nat) + pre.length = pre.length := Nat.zero_add _
    rw [h0]
    simp [isReadyGo, hfail]
  · intro c i hty hnf
    rcases hty with h1 | h1
    · simp [evalCheck, h1, hnf]
    · have hne1 : ¬ (c.type = "NonEmpty") := by rw [h1]; decide
      simp [evalCheck, hne1, h1, Value.getString, hnf]

/-- Claim C8, witness: a passing single check gives true; the spec
example pass-then-fail with a would-error check after it gives false
with no error; not-found is unmet for NonEmpty and MatchString. -/
theorem c8_isready_and_shortcircuit_witness :
    IsReady cd8 t8pass = .ok true ∧
    IsReady cd8 t8 = .ok false ∧
    evalCheck cdX.doc chkNonEmptyA 0 = .ok false ∧
    evalCheck cdX.doc chkMatchAx 0 = .ok false := by
  refine ⟨?_, ?_, ?_, ?_⟩
  · apply (c8_isready_and_shortcircuit cd8 t8pass (by decide)).1.mpr
    intro j hj
    have hj1 : j < 1 := hj
    have hj0 : j = 0 := by omega
    subst hj0
    rfl
  · refine (c8_isready_and_shortcircuit cd8 t8 (by decide)).2.1
      [chkNonEmptyA] chkMatchBx [chkBogus] rfl ?_ rfl
    intro j hj
    have hj1 : j < 1 := hj
    have hj0 : j = 0 := by omega
    subst hj0
    rfl
  · exact (c8_isready_and_shortcircuit cdX t9 (by decide)).2.2 chkNonEmptyA 0
      (Or.inl rfl) rfl
  · exact (c8_isready_and_shortcircuit cdX t9 (by decide)).2.2 chkMatchAx 0
      (Or.inr rfl) rfl

/-- Claim C9: a MatchInteger check whose field path resolves to a value
that is present but not an integer, reached after a passing part of the
check list, makes IsReady fail with the type-mismatch error, not return
false with no error. -/
theorem c9_matchinteger_type_mismatch (cd : Composed) (t : ComposedTemplate)
    (pre : List ReadinessCheck) (c : ReadinessCheck) (post : List ReadinessCheck)
    (v : Value)
    (hsplit : t.readinessChecks = pre ++ c :: post)
    (hpre : ∀ j (h : j < pre.length), evalCheck cd.doc (pre.get ⟨j, h⟩) j = .ok true)
    (hty : c.type = "MatchInteger")
    (hv : cd.doc.get c.fieldPath = .ok v)
    (hnotint : v.isInt = false) :
    IsReady cd t = .error (.getInt .wrongType) := by
  have hne : t.readinessChecks ≠ [] := by rw [hsplit]; simp
  have hIs : IsReady cd t = isReadyGo cd.doc t.readinessChecks 0 := by
    simp [IsReady, hne]
  have hprez : ∀ j (hj : j < pre.length),
      evalCheck cd.doc (pre.get ⟨j, hj⟩) (0 + j) = .ok true := by
    intro j hj
    simpa using hpre j hj
  rw [hIs, hsplit, isReadyGo_append cd.doc pre (c :: post) 0 hprez]
  have h0 : (0 : Nat) + pre.length = pre.length := Nat.zero_add _
  rw [h0]
  have hne1 : ¬ (c.type = "NonEmpty") := by rw [hty]; decide
  have hne2 : ¬ (c.type = "MatchString") := by rw [hty]; decide
  have hgint : cd.doc.getInteger c.fieldPath = .error .wrongType := by
    unfold Value.getInteger
    rw [hv]
    cases v with
    | str s => rfl
    | int n => simp [Value.isInt] at hnotint
    | obj fs => rfl
  have heval : evalCheck cd.doc c pre.length = .error (.getInt .wrongType) := by
    simp [evalCheck, hne1, hne2, hty, hgint]
  simp [isReadyGo, heval]

/-- Claim C9, witness: MatchInteger on a field holding a string returns
the type-mismatch error. -/
theorem c9_matchinteger_type_mismatch_witness :
    IsReady cd9 t9 = .error (.getInt .wrongType) :=
  c9_matchinteger_type_mismatch cd9 t9 [] chkMatchInt5 [] (.str "not-a-number")
    rfl (fun j hj => absurd hj (Nat.not_lt_zero j)) rfl rfl rfl

/-- Claim C10: a MatchInteger check whose field path is not found makes
the check, and IsReady run on it, fail with the retrieval error (the
branch returns every error unfiltered), while the same not found path
makes a NonEmpty or MatchString check merely unmet. -/
theorem c10_matchinteger_notfound_hard_error (cd : Composed) (t : ComposedTemplate)
    (c : ReadinessCheck) (i : Nat)
    (hnf : cd.doc.get c.fieldPath = .error .notFound) :
    (c.type = "MatchInteger" →
      evalCheck cd.doc c i = .error (.getInt (.get .notFound)) ∧
      (t.readinessChecks = [c] → IsReady cd t = .error (.getInt (.get .notFound)))) ∧
    ((c.type = "NonEmpty" ∨ c.type = "MatchString") →
      evalCheck cd.doc c i = .ok false) := by
  constructor
  · intro hty
    have hne1 : ¬ (c.type = "NonEmpty") := by rw [hty]; decide
    have hne2 : ¬ (c.type = "MatchString") := by rw [hty]; decide
    have hgint : cd.doc.getInteger c.fieldPath = .error (.get .notFound) := by
      unfold Value.getInteger
      rw [hnf]
    refine ⟨by simp [evalCheck, hne1, hne2, hty, hgint], ?_⟩
    intro hone
    have hne : t.readinessChecks ≠ [] := by rw [hone]; simp
    have heval0 : evalCheck cd.doc c 0 = .error (.getInt (.get .notFound)) := by
      simp [evalCheck, hne1, hne2, hty, hgint]
    simp [IsReady, hne, hone, isReadyGo, heval0]
  · intro hty
    rcases hty with h1 | h1
    · simp [evalCheck, h1, hnf]
    · have hne1 : ¬ (c.type = "NonEmpty") := by rw [h1]; decide
      simp [evalCheck, hne1, h1, Value.getString, hnf]

/-- Claim C10, witness: the MatchInteger check on an absent field makes
IsReady fail with the not-found retrieval error, while NonEmpty and
MatchString checks on the same field are merely unmet. -/
theorem c10_matchinteger_notfound_hard_error_witness :
    evalCheck cdX.doc chkMatchInt5 0 = .error (.getInt (.get .notFound)) ∧
    IsReady cdX t9 = .error (.getInt (.get .notFound)) ∧
    evalCheck cdX.doc chkNonEmptyA 1 = .ok false ∧
    evalCheck cdX.doc chkMatchAx 1 = .ok false := by
  refine ⟨?_, ?_, ?_, ?_⟩
  · exact ((c10_matchinteger_notfound_hard_error cdX t9 chkMatchInt5 0 rfl).1 rfl).1
  · exact ((c10_matchinteger_notfound_hard_error cdX t9 chkMatchInt5 0 rfl).1 rfl).2 rfl
  · exact (c10_matchinteger_notfound_hard_error cdX t9 chkNonEmptyA 1 rfl).2 (Or.inl rfl)
  · exact (c10_matchinteger_notfound_hard_error cdX t9 chkMatchAx 1 rfl).2 (Or.inr rfl)

end Crossplane
